import Mathlib

/-!
Shallow embedding of the encrypted file-backed wallet subsystem
(`wallet/file/file.go`): the secret-state envelope (KDF + AEAD seal/open)
and the wallet construction / signer-derivation dispatch.

External cryptographic collaborators (argon2, Deoxys-II, bip39, the signer
constructors living in sibling files of the same package) are modelled as
ideal deterministic primitives; every definition that stands for code not
present under `src/` carries a doc comment starting `Modelled from the
spec:`.  Go byte strings are `List Nat`; Go's `(value, error)` returns and
run-time panics are modelled by `GoResult`.
-/

namespace FileWallet

/-- Constant `stateKeySize = 32` from file.go. -/
def stateKeySize : Nat := 32

/-- Constant `stateNonceSize = 32` from file.go. -/
def stateNonceSize : Nat := 32

/-- Constant `kdfSaltSize = 32` from file.go. -/
def kdfSaltSize : Nat := 32

/-- Modelled from the spec: the Deoxys-II AEAD key size (32 bytes), exposed by
the external `deoxysii` package as `KeySize`. -/
def deoxysiiKeySize : Nat := 32

/-- Modelled from the spec: the Deoxys-II AEAD required nonce size (15 bytes),
exposed by the external `deoxysii` package as `aead.NonceSize()`. -/
def deoxysiiNonceSize : Nat := 15

/-- Error values surfaced by the embedded operations.  Each constructor stands
for one distinct Go error produced in `file.go` (or by a collaborator and
propagated unchanged); distinct constructors are distinguishable to the
caller, a single constructor is one undifferentiated error. -/
inductive WalletError where
  /-- The `"unsupported key derivation algorithm"` error of `deriveKey`. -/
  | unsupportedKDF
  /-- The fixed authentication-failure error returned by Deoxys-II `Open`
  (wrong key or corrupted ciphertext, undifferentiated by the cipher). -/
  | aeadOpenFailed
  /-- A `json.Unmarshal` error on the decrypted inner payload. -/
  | unmarshalFailed
  /-- The error of `deoxysii.New` on a key of the wrong length. -/
  | invalidKeySize
  /-- A signer-constructor failure (`failed to derive/initialize signer`). -/
  | signerInitFailed
  /-- The `"algorithm '%s' not supported"` error of `newWallet`. -/
  | unsupportedAlgorithm (alg : String)
  /-- The `"algorithm '%s' does not support import from ..."` error. -/
  | importIncompatible (alg : String)
  /-- The `"missing configuration"` / mapstructure error of `unmarshalConfig`. -/
  | missingConfig
deriving DecidableEq, Repr

/-- Result of a Go computation: a value, a returned error, or a run-time
crash (Go panic, e.g. an out-of-range slice). -/
inductive GoResult (α : Type) where
  | ok (val : α)
  | err (e : WalletError)
  | crash
deriving DecidableEq, Repr

/-- Go slicing `xs[:n]`: the first `n` elements, or a crash (panic) when
`n` exceeds the length. -/
def goSlice (xs : List Nat) (n : Nat) : Option (List Nat) :=
  if n ≤ xs.length then some (xs.take n) else none

/-- The decrypted wallet secret (`secretState` in file.go): the algorithm
tag together with the secret data (mnemonic or encoded raw key). -/
structure secretState where
  algorithm : String
  data : String
deriving DecidableEq, Repr

/-- Modelled from the spec: a symmetric key produced by the external
`argon2.IDKey` collaborator.  The KDF is idealized as injective: the key
value records exactly the inputs it was derived from (passphrase, salt,
time/memory/parallelism costs and requested output length), so two
derivations agree exactly when all inputs agree. -/
structure Argon2Key where
  passphrase : String
  salt : List Nat
  time : Nat
  memory : Nat
  threads : Nat
  keyLen : Nat
deriving DecidableEq, Repr

/-- Modelled from the spec: the external `argon2.IDKey(passphrase, salt,
time, memory, threads, keyLen)` call, returning the (idealized) derived
key of the requested length. -/
def argon2IDKey (passphrase : String) (salt : List Nat)
    (time memory threads keyLen : Nat) : Argon2Key :=
  { passphrase := passphrase, salt := salt, time := time, memory := memory,
    threads := threads, keyLen := keyLen }

/-- Modelled from the spec: one element of an ideal AEAD ciphertext.  The
external Deoxys-II collaborator is idealized as authenticated encryption:
a sealed ciphertext consists of an unforgeable tag binding the key, nonce,
plaintext and associated data, together with the plaintext bytes; `Open`
succeeds exactly on genuine ciphertexts under the same key/nonce/aad.  (The
position of the tag within the ciphertext is immaterial to the modelled
properties.) -/
inductive CTByte where
  | byte (b : Nat)
  | tag (key : Argon2Key) (nonce : List Nat) (pt : List Nat) (aad : List Nat)
deriving DecidableEq, Repr

/-- Modelled from the spec: ideal `aead.Seal(nil, nonce, pt, aad)`. -/
def aeadSeal (key : Argon2Key) (nonce : List Nat) (pt : List Nat)
    (aad : List Nat) : List CTByte :=
  CTByte.tag key nonce pt aad :: pt.map CTByte.byte

/-- Modelled from the spec: ideal `aead.Open(nil, nonce, ct, aad)`; returns
the plaintext exactly when `ct` is a genuine seal under the same key, nonce
and associated data, and the cipher's single undifferentiated failure
(`none`) otherwise. -/
def aeadOpen (key : Argon2Key) (nonce : List Nat) (ct : List CTByte)
    (aad : List Nat) : Option (List Nat) :=
  match ct with
  | CTByte.tag _ _ pt _ :: _ =>
      if ct = aeadSeal key nonce pt aad then some pt else none
  | _ => none

/-- Modelled from the spec: `deoxysii.New(key)`, which fails on a key whose
length differs from the cipher's 32-byte key size and otherwise yields the
AEAD instance (identified with its key in the ideal model). -/
def deoxysiiNew (key : Argon2Key) : GoResult Argon2Key :=
  if key.keyLen = deoxysiiKeySize then .ok key else .err .invalidKeySize

/-- The `kdfArgon2` record of file.go: the Argon2 parameters stored in the
envelope (salt plus time/memory/parallelism costs). -/
structure kdfArgon2 where
  salt : List Nat
  time : Nat
  memory : Nat
  threads : Nat
deriving DecidableEq, Repr

/-- `kdfArgon2.deriveKey` of file.go: `argon2.IDKey([]byte(passphrase),
k.Salt, k.Time, k.Memory, k.Threads, stateKeySize)`, never failing. -/
def kdfArgon2.deriveKey (k : kdfArgon2) (passphrase : String) :
    GoResult Argon2Key :=
  .ok (argon2IDKey passphrase k.salt k.time k.memory k.threads stateKeySize)

/-- The `secretStateKDF` record of file.go: the tagged set of KDF kinds
(currently only the optional Argon2 variant). -/
structure secretStateKDF where
  argon2 : Option kdfArgon2
deriving DecidableEq, Repr

/-- The `secretStateEnvelope` record of file.go: KDF descriptor, nonce and
ciphertext as persisted on disk. -/
structure secretStateEnvelope where
  kdf : secretStateKDF
  nonce : List Nat
  data : List CTByte
deriving DecidableEq, Repr

/-- `secretStateEnvelope.deriveKey` of file.go: dispatch on the envelope's
own KDF descriptor; an envelope carrying no supported variant yields the
`unsupported key derivation algorithm` error. -/
def secretStateEnvelope.deriveKey (e : secretStateEnvelope)
    (passphrase : String) : GoResult Argon2Key :=
  match e.kdf.argon2 with
  | some k => k.deriveKey passphrase
  | none => .err .unsupportedKDF

/-- Modelled from the spec: `json.Marshal` of the inner `secretState`
(canonical serialization of the algorithm/data pair into plaintext bytes):
a length field for the algorithm followed by the character codes of the two
strings. -/
def marshalSecretState (s : secretState) : List Nat :=
  s.algorithm.data.length ::
    (s.algorithm.data.map Char.toNat ++ s.data.data.map Char.toNat)

/-- Modelled from the spec: `json.Unmarshal` of the decrypted plaintext back
into a `secretState`; fails (like the collaborator) on byte strings that are
not well-formed serializations. -/
def unmarshalSecretState (pt : List Nat) : Option secretState :=
  match pt with
  | [] => none
  | n :: rest =>
      if n ≤ rest.length then
        some { algorithm := String.mk ((rest.take n).map Char.ofNat),
               data := String.mk ((rest.drop n).map Char.ofNat) }
      else none

/-- `secretState.Seal` of file.go.  The bytes delivered by the
cryptographically secure random source during the call (`rand.Read` into
the 32-byte nonce and salt arrays) enter as the `nonce` and `salt`
parameters; a failing random source corresponds to the caller never
reaching this point.  The envelope is built with the fixed default Argon2
parameters, the key is derived, the state serialized, and the AEAD is
applied with `envelope.Nonce[:aead.NonceSize()]`. -/
def secretState.Seal (s : secretState) (passphrase : String)
    (nonce salt : List Nat) : GoResult secretStateEnvelope :=
  let envelope : secretStateEnvelope :=
    { kdf := { argon2 := some { salt := salt, time := 1, memory := 64 * 1024,
                                threads := 4 } }
      nonce := nonce
      data := [] }
  match envelope.deriveKey passphrase with
  | .err e => .err e
  | .crash => .crash
  | .ok key =>
    let data := marshalSecretState s
    match deoxysiiNew key with
    | .err e => .err e
    | .crash => .crash
    | .ok aead =>
      match goSlice envelope.nonce deoxysiiNonceSize with
      | none => .crash
      | some n =>
        .ok { envelope with data := aeadSeal aead n data [] }

/-- `secretStateEnvelope.Open` of file.go: re-derive the key from the
envelope's own KDF descriptor, decrypt with
`e.Nonce[:aead.NonceSize()]`, and deserialize the inner state. -/
def secretStateEnvelope.Open (e : secretStateEnvelope)
    (passphrase : String) : GoResult secretState :=
  match e.deriveKey passphrase with
  | .err er => .err er
  | .crash => .crash
  | .ok key =>
    match deoxysiiNew key with
    | .err er => .err er
    | .crash => .crash
    | .ok aead =>
      match goSlice e.nonce deoxysiiNonceSize with
      | none => .crash
      | some n =>
        match aeadOpen aead n e.data [] with
        | none => .err .aeadOpenFailed
        | some pt =>
          match unmarshalSecretState pt with
          | none => .err .unmarshalFailed
          | some state => .ok state

/-- Opening a genuine ciphertext with the key, nonce and associated data it
was sealed under recovers the plaintext. -/
theorem aeadOpen_aeadSeal (key : Argon2Key) (nonce pt aad : List Nat) :
    aeadOpen key nonce (aeadSeal key nonce pt aad) aad = some pt := by
  simp [aeadOpen, aeadSeal]

/-- Opening a genuine ciphertext under a different key fails. -/
theorem aeadOpen_aeadSeal_ne_key (key key' : Argon2Key)
    (nonce nonce' pt aad aad' : List Nat) (hk : key' ≠ key) :
    aeadOpen key' nonce' (aeadSeal key nonce pt aad) aad' = none := by
  simp only [aeadOpen, aeadSeal]
  rw [if_neg]
  intro h
  exact hk (((CTByte.tag.inj (List.cons_eq_cons.mp h).1).1).symm)

/-- Changing one element of a list to a different value changes the list. -/
theorem set_ne_self {α : Type} {l : List α} {i : Nat} {x : α}
    (hi : i < l.length) (hx : l[i] ≠ x) : l.set i x ≠ l := by
  intro h
  have h1 : (l.set i x)[i]? = l[i]? := by rw [h]
  rw [List.getElem?_set_self hi, List.getElem?_eq_getElem hi] at h1
  exact hx (Option.some.inj h1).symm

/-- Mapping the `byte` constructor over plaintext bytes is injective. -/
theorem map_byte_inj {l l' : List Nat}
    (h : l.map CTByte.byte = l'.map CTByte.byte) : l = l' :=
  List.map_injective_iff.mpr (fun _ _ hab => CTByte.byte.inj hab) h

/-- Replacing any single element of a genuine ciphertext by a different
value makes opening fail with the cipher's undifferentiated failure. -/
theorem aeadOpen_set_ne (key : Argon2Key) (nonce pt aad : List Nat)
    (i : Nat) (x : CTByte) (hi : i < (aeadSeal key nonce pt aad).length)
    (hx : (aeadSeal key nonce pt aad)[i] ≠ x) :
    aeadOpen key nonce ((aeadSeal key nonce pt aad).set i x) aad = none := by
  match i, hi, hx with
  | 0, _, hx =>
    cases x with
    | byte b => simp [aeadSeal, aeadOpen]
    | tag k' n' pt' a' =>
      have hxx : CTByte.tag key nonce pt aad ≠ CTByte.tag k' n' pt' a' := by
        simpa [aeadSeal] using hx
      simp only [aeadSeal, List.set_cons_zero, aeadOpen]
      rw [if_neg]
      intro h
      obtain ⟨h1, h2⟩ := List.cons_eq_cons.mp h
      obtain ⟨hk, hn, -, ha⟩ := CTByte.tag.inj h1
      exact hxx (by rw [hk, hn, ha, map_byte_inj h2.symm])
  | (j+1), hi, hx =>
    have hj : j < (pt.map CTByte.byte).length := by
      simpa [aeadSeal] using hi
    have hx' : (pt.map CTByte.byte)[j] ≠ x := by
      simpa [aeadSeal] using hx
    simp only [aeadSeal, List.set_cons_succ, aeadOpen]
    rw [if_neg]
    intro h
    obtain ⟨-, h2⟩ := List.cons_eq_cons.mp h
    exact set_ne_self hj hx' h2

/-- Deserialization inverts serialization of the inner secret state. -/
theorem unmarshalSecretState_marshalSecretState (s : secretState) :
    unmarshalSecretState (marshalSecretState s) = some s := by
  obtain ⟨⟨a⟩, ⟨d⟩⟩ := s
  have hlen : a.length = (a.map Char.toNat).length := (List.length_map a _).symm
  simp only [marshalSecretState, unmarshalSecretState]
  rw [if_pos]
  · rw [List.take_left' hlen.symm, List.drop_left' hlen.symm]
    simp [List.map_map, Function.comp_def]
  · rw [List.length_append, ← hlen]
    omega

/-- Evaluation of `Seal`: with enough random nonce bytes it succeeds and
produces exactly the envelope with the fixed Argon2 descriptor, the full
stored nonce, and the AEAD ciphertext sealed under the truncated nonce;
with fewer than `deoxysiiNonceSize` nonce bytes the slice panics. -/
theorem seal_eq (s : secretState) (p : String) (nonce salt : List Nat) :
    secretState.Seal s p nonce salt =
      if deoxysiiNonceSize ≤ nonce.length then
        .ok { kdf := { argon2 := some { salt := salt, time := 1,
                                        memory := 64 * 1024, threads := 4 } }
              nonce := nonce
              data := aeadSeal (argon2IDKey p salt 1 (64 * 1024) 4 stateKeySize)
                        (nonce.take deoxysiiNonceSize) (marshalSecretState s) [] }
      else .crash := by
  by_cases h : deoxysiiNonceSize ≤ nonce.length <;>
    simp [secretState.Seal, secretStateEnvelope.deriveKey, kdfArgon2.deriveKey,
      deoxysiiNew, argon2IDKey, stateKeySize, deoxysiiKeySize, goSlice, h]

/-- Evaluation of `Open` on an envelope carrying an Argon2 descriptor and at
least `deoxysiiNonceSize` stored nonce bytes: the key is recomputed from the
envelope's own descriptor and the AEAD is applied to the truncated nonce. -/
theorem open_eq (e : secretStateEnvelope) (p : String) (k : kdfArgon2)
    (hk : e.kdf.argon2 = some k) (hn : deoxysiiNonceSize ≤ e.nonce.length) :
    e.Open p =
      match aeadOpen (argon2IDKey p k.salt k.time k.memory k.threads stateKeySize)
          (e.nonce.take deoxysiiNonceSize) e.data [] with
      | none => .err .aeadOpenFailed
      | some pt =>
        match unmarshalSecretState pt with
        | none => .err .unmarshalFailed
        | some state => .ok state := by
  simp [secretStateEnvelope.Open, secretStateEnvelope.deriveKey, hk,
    kdfArgon2.deriveKey, deoxysiiNew, argon2IDKey, stateKeySize,
    deoxysiiKeySize, goSlice, hn]

/-- C1: for every secret state and passphrase, if `Seal` succeeds producing
an envelope, then `Open` on that envelope with the same passphrase succeeds
and returns a secret state equal to the original (same algorithm tag and
same data). -/
theorem C1_seal_open_roundtrip (s : secretState) (p : String)
    (nonce salt : List Nat) (e : secretStateEnvelope)
    (h : secretState.Seal s p nonce salt = .ok e) :
    e.Open p = .ok s := by
  rw [seal_eq] at h
  by_cases hn : deoxysiiNonceSize ≤ nonce.length
  · rw [if_pos hn] at h
    cases h
    simp [secretStateEnvelope.Open, secretStateEnvelope.deriveKey,
      kdfArgon2.deriveKey, deoxysiiNew, argon2IDKey, stateKeySize,
      deoxysiiKeySize, goSlice, hn, aeadOpen_aeadSeal,
      unmarshalSecretState_marshalSecretState]
  · rw [if_neg hn] at h
    cases h

/-- Witness for C1 at a concrete secret state, passphrase and random bytes. -/
theorem C1_seal_open_roundtrip_witness :
    secretState.Seal { algorithm := "ed25519-adr8", data := "k" } "pw"
        (List.range 32) (List.range 32) =
      .ok { kdf := { argon2 := some { salt := List.range 32, time := 1,
                                      memory := 64 * 1024, threads := 4 } }
            nonce := List.range 32
            data := aeadSeal (argon2IDKey "pw" (List.range 32) 1 (64 * 1024) 4
                        stateKeySize)
                      ((List.range 32).take deoxysiiNonceSize)
                      (marshalSecretState
                        { algorithm := "ed25519-adr8", data := "k" }) [] } ∧
    secretStateEnvelope.Open
      { kdf := { argon2 := some { salt := List.range 32, time := 1,
                                  memory := 64 * 1024, threads := 4 } }
        nonce := List.range 32
        data := aeadSeal (argon2IDKey "pw" (List.range 32) 1 (64 * 1024) 4
                    stateKeySize)
                  ((List.range 32).take deoxysiiNonceSize)
                  (marshalSecretState
                    { algorithm := "ed25519-adr8", data := "k" }) [] } "pw" =
      .ok { algorithm := "ed25519-adr8", data := "k" } :=
  ⟨by rw [seal_eq]; rfl,
   C1_seal_open_roundtrip { algorithm := "ed25519-adr8", data := "k" } "pw"
     (List.range 32) (List.range 32) _ (by rw [seal_eq]; rfl)⟩

/-- C2: for every envelope produced by `Seal`, opening with a wrong
passphrase fails, opening after flipping any single ciphertext byte fails,
and both failures surface as one and the same undifferentiated
authentication error (`aeadOpenFailed`) — no crash, no silently mis-decoded
secret state, and the two causes are indistinguishable from the result. -/
theorem C2_auth_failure_undifferentiated (s : secretState) (p : String)
    (nonce salt : List Nat) (e : secretStateEnvelope)
    (h : secretState.Seal s p nonce salt = .ok e) :
    (∀ p', p' ≠ p → e.Open p' = .err .aeadOpenFailed) ∧
    (∀ (i : Nat) (x : CTByte) (hi : i < e.data.length), e.data[i] ≠ x →
      secretStateEnvelope.Open { e with data := e.data.set i x } p =
        .err .aeadOpenFailed) := by
  rw [seal_eq] at h
  by_cases hn : deoxysiiNonceSize ≤ nonce.length
  · rw [if_pos hn] at h
    cases h
    constructor
    · intro p' hp'
      rw [open_eq _ _ _ rfl hn]
      rw [aeadOpen_aeadSeal_ne_key _ _ _ _ _ _ _ (fun hq =>
        hp' (congrArg Argon2Key.passphrase hq))]
    · intro i x hi hx
      rw [open_eq _ _ _ rfl (by simpa using hn)]
      rw [aeadOpen_set_ne _ _ _ _ _ _ hi hx]
  · rw [if_neg hn] at h
    cases h

/-- Witness for C2: a concrete sealed envelope opened with a wrong
passphrase, and the same envelope with its first ciphertext byte replaced,
both yield the same undifferentiated authentication error. -/
theorem C2_auth_failure_undifferentiated_witness :
    secretStateEnvelope.Open
      { kdf := { argon2 := some { salt := List.range 32, time := 1,
                                  memory := 64 * 1024, threads := 4 } }
        nonce := List.range 32
        data := aeadSeal (argon2IDKey "pw" (List.range 32) 1 (64 * 1024) 4
                    stateKeySize)
                  ((List.range 32).take deoxysiiNonceSize)
                  (marshalSecretState { algorithm := "a", data := "b" }) [] }
      "wrong" = .err .aeadOpenFailed ∧
    secretStateEnvelope.Open
      { kdf := { argon2 := some { salt := List.range 32, time := 1,
                                  memory := 64 * 1024, threads := 4 } }
        nonce := List.range 32
        data := (aeadSeal (argon2IDKey "pw" (List.range 32) 1 (64 * 1024) 4
                    stateKeySize)
                  ((List.range 32).take deoxysiiNonceSize)
                  (marshalSecretState { algorithm := "a", data := "b" }) []).set
                  0 (CTByte.byte 0) }
      "pw" = .err .aeadOpenFailed :=
  ⟨(C2_auth_failure_undifferentiated { algorithm := "a", data := "b" } "pw"
      (List.range 32) (List.range 32) _ (by rw [seal_eq]; rfl)).1
      "wrong" (by decide),
   (C2_auth_failure_undifferentiated { algorithm := "a", data := "b" } "pw"
      (List.range 32) (List.range 32) _ (by rw [seal_eq]; rfl)).2
      0 (CTByte.byte 0) (by simp [aeadSeal]) (by decide)⟩

/-- C3 counterexample: the claim "the nonce passed to the AEAD has exactly
the cipher's required nonce size; a stored nonce length that does not match
the cipher's required size is surfaced as a configuration error — the nonce
is never silently truncated" is false on the code: a concrete `Seal`
produces an envelope whose stored 32-byte nonce differs in length from the
cipher's 15-byte requirement, the AEAD call inside that very `Seal`
received only the first 15 bytes (visible in the ciphertext), and `Open`
succeeds without surfacing any configuration error. -/
theorem C3_counterexample :
    (List.range 32).length ≠ deoxysiiNonceSize ∧
    (List.range 32).take deoxysiiNonceSize ≠ List.range 32 ∧
    secretState.Seal { algorithm := "a", data := "b" } "p"
        (List.range 32) (List.range 32) =
      .ok { kdf := { argon2 := some { salt := List.range 32, time := 1,
                                      memory := 64 * 1024, threads := 4 } }
            nonce := List.range 32
            data := aeadSeal (argon2IDKey "p" (List.range 32) 1 (64 * 1024) 4
                        stateKeySize)
                      ((List.range 32).take deoxysiiNonceSize)
                      (marshalSecretState { algorithm := "a", data := "b" }) [] } ∧
    secretStateEnvelope.Open
      { kdf := { argon2 := some { salt := List.range 32, time := 1,
                                  memory := 64 * 1024, threads := 4 } }
        nonce := List.range 32
        data := aeadSeal (argon2IDKey "p" (List.range 32) 1 (64 * 1024) 4
                    stateKeySize)
                  ((List.range 32).take deoxysiiNonceSize)
                  (marshalSecretState { algorithm := "a", data := "b" }) [] }
      "p" = .ok { algorithm := "a", data := "b" } := by
  refine ⟨by decide, by decide, by rw [seal_eq]; rfl, ?_⟩
  rw [open_eq _ _ _ rfl (by decide), aeadOpen_aeadSeal]
  simp [unmarshalSecretState_marshalSecretState]

/-- C3 amended: `Seal` and `Open` pass the AEAD the first
`deoxysiiNonceSize` (15) bytes of the stored nonce — the stored 32-byte
nonce is silently truncated to the cipher's required size, and `Open`
depends only on those first bytes; a stored nonce shorter than the cipher's
required size causes a crash (Go slice panic), not a configuration
error. -/
theorem C3_amended_nonce_truncation :
    (∀ (s : secretState) (p : String) (nonce salt : List Nat),
      deoxysiiNonceSize ≤ nonce.length →
      secretState.Seal s p nonce salt =
        .ok { kdf := { argon2 := some { salt := salt, time := 1,
                                        memory := 64 * 1024, threads := 4 } }
              nonce := nonce
              data := aeadSeal (argon2IDKey p salt 1 (64 * 1024) 4 stateKeySize)
                        (nonce.take deoxysiiNonceSize)
                        (marshalSecretState s) [] }) ∧
    (∀ (e : secretStateEnvelope) (p : String),
      deoxysiiNonceSize ≤ e.nonce.length →
      e.Open p =
        secretStateEnvelope.Open
          { e with nonce := e.nonce.take deoxysiiNonceSize } p) ∧
    (∀ (e : secretStateEnvelope) (p : String) (k : kdfArgon2),
      e.kdf.argon2 = some k → e.nonce.length < deoxysiiNonceSize →
      e.Open p = .crash) := by
  refine ⟨?_, ?_, ?_⟩
  · intro s p nonce salt hn
    rw [seal_eq, if_pos hn]
  · intro e p hn
    match he : e.kdf.argon2 with
    | none =>
      simp [secretStateEnvelope.Open, secretStateEnvelope.deriveKey, he]
    | some k =>
      rw [open_eq e p k he hn,
        open_eq { e with nonce := e.nonce.take deoxysiiNonceSize } p k he
          (by simp [List.length_take]; omega)]
      simp [List.take_take]
  · intro e p k hk hn
    simp [secretStateEnvelope.Open, secretStateEnvelope.deriveKey, hk,
      kdfArgon2.deriveKey, deoxysiiNew, argon2IDKey, stateKeySize,
      deoxysiiKeySize, goSlice, Nat.not_le.mpr hn]

/-- Witness for the amended C3 at concrete envelopes: a sealed 32-byte
nonce with truncated AEAD nonce, truncation-invariance of `Open`, and the
crash on a too-short stored nonce. -/
theorem C3_amended_nonce_truncation_witness :
    secretState.Seal { algorithm := "a", data := "b" } "p"
        (List.range 15) [] =
      .ok { kdf := { argon2 := some { salt := [], time := 1,
                                      memory := 64 * 1024, threads := 4 } }
            nonce := List.range 15
            data := aeadSeal (argon2IDKey "p" [] 1 (64 * 1024) 4 stateKeySize)
                      ((List.range 15).take deoxysiiNonceSize)
                      (marshalSecretState { algorithm := "a", data := "b" }) [] } ∧
    secretStateEnvelope.Open
        { kdf := { argon2 := some { salt := [], time := 1, memory := 1,
                                    threads := 1 } }
          nonce := List.range 32, data := [] } "p" =
      secretStateEnvelope.Open
        { kdf := { argon2 := some { salt := [], time := 1, memory := 1,
                                    threads := 1 } }
          nonce := (List.range 32).take deoxysiiNonceSize, data := [] } "p" ∧
    secretStateEnvelope.Open
        { kdf := { argon2 := some { salt := [], time := 1, memory := 1,
                                    threads := 1 } }
          nonce := [], data := [] } "p" = .crash :=
  ⟨C3_amended_nonce_truncation.1 { algorithm := "a", data := "b" } "p"
     (List.range 15) [] (by decide),
   C3_amended_nonce_truncation.2.1
     { kdf := { argon2 := some { salt := [], time := 1, memory := 1,
                                 threads := 1 } }
       nonce := List.range 32, data := [] } "p" (by decide),
   C3_amended_nonce_truncation.2.2
     { kdf := { argon2 := some { salt := [], time := 1, memory := 1,
                                 threads := 1 } }
       nonce := [], data := [] } "p"
     { salt := [], time := 1, memory := 1, threads := 1 } rfl (by decide)⟩

/-- C5: `Open` derives the decryption key solely from the passphrase and the
KDF descriptor embedded in the envelope itself (its salt and Argon2
parameters), and an envelope whose KDF descriptor carries no supported
variant fails closed: `Open` returns the unsupported-KDF error and never a
secret state. -/
theorem C5_key_from_descriptor_fail_closed (e : secretStateEnvelope)
    (p : String) :
    (∀ k, e.kdf.argon2 = some k →
      e.deriveKey p =
        .ok (argon2IDKey p k.salt k.time k.memory k.threads stateKeySize)) ∧
    (e.kdf.argon2 = none →
      e.Open p = .err .unsupportedKDF ∧ ∀ s, e.Open p ≠ .ok s) := by
  constructor
  · intro k hk
    simp [secretStateEnvelope.deriveKey, hk, kdfArgon2.deriveKey]
  · intro hk
    have h : e.Open p = .err .unsupportedKDF := by
      simp [secretStateEnvelope.Open, secretStateEnvelope.deriveKey, hk]
    exact ⟨h, fun s hs => by rw [h] at hs; cases hs⟩

/-- Witness for C5: the derived key of a concrete Argon2 envelope, and the
fail-closed error of a concrete envelope with an empty KDF descriptor. -/
theorem C5_key_from_descriptor_fail_closed_witness :
    secretStateEnvelope.deriveKey
        { kdf := { argon2 := some { salt := [3], time := 2, memory := 5,
                                    threads := 7 } }
          nonce := [], data := [] } "p" =
      .ok (argon2IDKey "p" [3] 2 5 7 stateKeySize) ∧
    secretStateEnvelope.Open
        { kdf := { argon2 := none }, nonce := [], data := [] } "p" =
      .err .unsupportedKDF :=
  ⟨(C5_key_from_descriptor_fail_closed
      { kdf := { argon2 := some { salt := [3], time := 2, memory := 5,
                                  threads := 7 } }
        nonce := [], data := [] } "p").1
     { salt := [3], time := 2, memory := 5, threads := 7 } rfl,
   ((C5_key_from_descriptor_fail_closed
      { kdf := { argon2 := none }, nonce := [], data := [] } "p").2 rfl).1⟩

/-- C6: with the 32 nonce bytes and 32 salt bytes delivered by the random
source during the call, `Seal` succeeds and the produced envelope stores
exactly those fresh 32-byte nonce and salt values together with an Argon2
descriptor with time cost 1, memory cost 64 MiB (64 * 1024 KiB) and
parallelism 4, from which the envelope re-derives the 32-byte
(`stateKeySize`) symmetric key. -/
theorem C6_seal_envelope_shape (s : secretState) (p : String)
    (nonce salt : List Nat) (hn : nonce.length = stateNonceSize)
    (hs : salt.length = kdfSaltSize) :
    ∃ e, secretState.Seal s p nonce salt = .ok e ∧
      e.nonce = nonce ∧ e.nonce.length = 32 ∧
      e.kdf.argon2 = some { salt := salt, time := 1, memory := 64 * 1024,
                            threads := 4 } ∧
      salt.length = 32 ∧
      e.deriveKey p = .ok (argon2IDKey p salt 1 (64 * 1024) 4 stateKeySize) ∧
      (argon2IDKey p salt 1 (64 * 1024) 4 stateKeySize).keyLen = 32 := by
  have hn' : deoxysiiNonceSize ≤ nonce.length := by
    rw [hn]; decide
  refine ⟨_, by rw [seal_eq, if_pos hn'], rfl, hn, rfl, hs, ?_, rfl⟩
  simp [secretStateEnvelope.deriveKey, kdfArgon2.deriveKey]

/-- Witness for C6 at concrete random bytes. -/
theorem C6_seal_envelope_shape_witness :
    ∃ e, secretState.Seal { algorithm := "a", data := "b" } "p"
        (List.range 32) (List.range 32) = .ok e ∧
      e.nonce = List.range 32 ∧ e.nonce.length = 32 ∧
      e.kdf.argon2 = some { salt := List.range 32, time := 1,
                            memory := 64 * 1024, threads := 4 } ∧
      (List.range 32).length = 32 ∧
      e.deriveKey "p" =
        .ok (argon2IDKey "p" (List.range 32) 1 (64 * 1024) 4 stateKeySize) ∧
      (argon2IDKey "p" (List.range 32) 1 (64 * 1024) 4 stateKeySize).keyLen =
        32 :=
  C6_seal_envelope_shape { algorithm := "a", data := "b" } "p"
    (List.range 32) (List.range 32) (by decide) (by decide)

/-- C8: if AEAD decryption succeeds in `Open` but deserialization of the
decrypted plaintext fails, `Open` reports the deserialization error, which
is distinct from the ordinary undifferentiated authentication error. -/
theorem C8_unmarshal_failure_distinct (e : secretStateEnvelope) (p : String)
    (k : kdfArgon2) (pt : List Nat)
    (hk : e.kdf.argon2 = some k) (hn : deoxysiiNonceSize ≤ e.nonce.length)
    (hopen : aeadOpen (argon2IDKey p k.salt k.time k.memory k.threads
        stateKeySize) (e.nonce.take deoxysiiNonceSize) e.data [] = some pt)
    (hum : unmarshalSecretState pt = none) :
    e.Open p = .err .unmarshalFailed ∧
    WalletError.unmarshalFailed ≠ WalletError.aeadOpenFailed := by
  rw [open_eq e p k hk hn, hopen]
  simp [hum]

/-- Witness for C8: a concrete envelope whose ciphertext is a genuine seal
of an empty (hence non-deserializable) plaintext. -/
theorem C8_unmarshal_failure_distinct_witness :
    secretStateEnvelope.Open
      { kdf := { argon2 := some { salt := [], time := 1, memory := 1,
                                  threads := 1 } }
        nonce := List.range 15
        data := aeadSeal (argon2IDKey "p" [] 1 1 1 stateKeySize)
                  ((List.range 15).take deoxysiiNonceSize) [] [] } "p" =
      .err .unmarshalFailed ∧
    WalletError.unmarshalFailed ≠ WalletError.aeadOpenFailed :=
  C8_unmarshal_failure_distinct
    { kdf := { argon2 := some { salt := [], time := 1, memory := 1,
                                threads := 1 } }
      nonce := List.range 15
      data := aeadSeal (argon2IDKey "p" [] 1 1 1 stateKeySize)
                ((List.range 15).take deoxysiiNonceSize) [] [] } "p"
    { salt := [], time := 1, memory := 1, threads := 1 } []
    rfl (by decide) (aeadOpen_aeadSeal _ _ _ _) rfl

/-- Modelled from the spec: the `wallet.AlgorithmEd25519Adr8` tag of the
wallet package (Ed25519 with the ADR 0008 hierarchical derivation). -/
def AlgorithmEd25519Adr8 : String := "ed25519-adr8"

/-- Modelled from the spec: the `wallet.AlgorithmEd25519Raw` tag (Ed25519
from a base64-encoded raw private key). -/
def AlgorithmEd25519Raw : String := "ed25519-raw"

/-- Modelled from the spec: the `wallet.AlgorithmSecp256k1Bip44` tag
(Secp256k1 with BIP-44 hierarchical derivation). -/
def AlgorithmSecp256k1Bip44 : String := "secp256k1-bip44"

/-- Modelled from the spec: the `wallet.AlgorithmSecp256k1Raw` tag
(Secp256k1 from a hex-encoded raw private key). -/
def AlgorithmSecp256k1Raw : String := "secp256k1-raw"

/-- Modelled from the spec: the import kinds of the wallet package. -/
inductive ImportKind where
  | mnemonic
  | privateKey
deriving DecidableEq, Repr

/-- Modelled from the spec: `wallet.ImportSource` — the kind of imported
material together with the user-supplied secret data string. -/
structure ImportSource where
  kind : ImportKind
  data : String
deriving DecidableEq, Repr

/-- The `walletConfig` record of file.go: algorithm tag and account key
number (a Go `uint32`, embedded as `Nat`). -/
structure walletConfig where
  algorithm : String
  number : Nat
deriving DecidableEq, Repr

/-- `fileWalletFactory.unmarshalConfig` of file.go: a `nil` raw
configuration map (or one mapstructure fails on, folded into `none` here)
is the missing-configuration error, otherwise the decoded config. -/
def unmarshalConfig (raw : Option walletConfig) : GoResult walletConfig :=
  match raw with
  | none => .err .missingConfig
  | some cfg => .ok cfg

/-- Modelled from the spec: a consensus-layer (oasis-core) Ed25519 signer,
as produced by the external ADR 0008 account-key derivation
(`sakg.GetAccountSigner`) or by the repository's raw-key signer
(`ed25519rawSigner`, a sibling file of this package not present under
`src/`).  Derivation is deterministic: the signer is a function of its
inputs. -/
inductive CoreSigner where
  | adr8 (mnemonic : String) (number : Nat)
  | raw (keyBase64 : String)
deriving DecidableEq, Repr

/-- Modelled from the spec: the runtime-layer signer held by a wallet.
`ed25519Wrapped` is `ed25519.WrapSigner` around a consensus-layer signer
(and can be unwrapped back, the capability-checked cast of
`ConsensusSigner`); the Secp256k1 signers carry no consensus-layer
signer. -/
inductive Signer where
  | ed25519Wrapped (core : CoreSigner)
  | secp256k1Mnemonic (mnemonic : String) (number : Nat)
  | secp256k1Hex (key : String)
deriving DecidableEq, Repr

/-- Modelled from the spec: bip39 mnemonic well-formedness, abstracted to a
concrete executable proxy (a phrase of several space-separated words); the
claims settled here do not depend on its exact extension. -/
def isValidMnemonic (s : String) : Bool :=
  s.data.contains ' '

/-- Modelled from the spec: well-formedness of a base64-encoded raw Ed25519
private key (base64 alphabet, 4-byte groups, nonempty); a string that is
not base64 — e.g. any mnemonic phrase, which contains spaces — is
rejected. -/
def isBase64Key (s : String) : Bool :=
  s.data.all (fun c => c.isAlphanum || c = '+' || c = '/' || c = '=') &&
    s.data.length % 4 = 0 && !s.data.isEmpty

/-- Modelled from the spec: well-formedness of a hex-encoded raw Secp256k1
private key. -/
def isHexKey (s : String) : Bool :=
  s.data.all (fun c =>
    c.isDigit || ('a' ≤ c && c ≤ 'f') || ('A' ≤ c && c ≤ 'F')) &&
    !s.data.isEmpty

/-- Modelled from the spec: the external `sakg.GetAccountSigner(mnemonic,
"", number)` ADR 0008 derivation — deterministic in (mnemonic, number),
failing on a malformed mnemonic. -/
def sakgGetAccountSigner (mnemonic : String) (number : Nat) :
    GoResult CoreSigner :=
  if isValidMnemonic mnemonic then .ok (.adr8 mnemonic number)
  else .err .signerInitFailed

/-- Modelled from the spec: `ed25519rawSigner.unmarshalBase64` (sibling
file of this package, not under `src/`) — accepts exactly a well-formed
base64-encoded raw private key; the account index plays no part. -/
def ed25519rawSignerFromBase64 (data : String) : GoResult CoreSigner :=
  if isBase64Key data then .ok (.raw data) else .err .signerInitFailed

/-- Modelled from the spec: `Secp256k1FromMnemonic` (sibling file, not
under `src/`) — deterministic BIP-44 derivation at the account index,
failing on a malformed mnemonic. -/
def Secp256k1FromMnemonic (mnemonic : String) (number : Nat) :
    GoResult Signer :=
  if isValidMnemonic mnemonic then .ok (.secp256k1Mnemonic mnemonic number)
  else .err .signerInitFailed

/-- Modelled from the spec: `Secp256k1FromHex` (sibling file, not under
`src/`) — direct import of a hex-encoded raw private key; the account
index plays no part. -/
def Secp256k1FromHex (key : String) : GoResult Signer :=
  if isHexKey key then .ok (.secp256k1Hex key) else .err .signerInitFailed

/-- The `fileWallet` record of file.go: configuration, decrypted secret
state, and the derived signer. -/
structure fileWallet where
  cfg : walletConfig
  state : secretState
  signer : Signer
deriving DecidableEq, Repr

/-- `newWallet` of file.go: dispatch on the secret state's algorithm tag,
deriving the signer from the secret data (and, for the hierarchical
algorithms only, the configured account number); an unknown tag fails
closed. -/
def newWallet (state : secretState) (cfg : walletConfig) :
    GoResult fileWallet :=
  if state.algorithm = AlgorithmEd25519Adr8 then
    match sakgGetAccountSigner state.data cfg.number with
    | .ok signer => .ok { cfg := cfg, state := state,
                          signer := .ed25519Wrapped signer }
    | .err e => .err e
    | .crash => .crash
  else if state.algorithm = AlgorithmEd25519Raw then
    match ed25519rawSignerFromBase64 state.data with
    | .ok signer => .ok { cfg := cfg, state := state,
                          signer := .ed25519Wrapped signer }
    | .err e => .err e
    | .crash => .crash
  else if state.algorithm = AlgorithmSecp256k1Bip44 then
    match Secp256k1FromMnemonic state.data cfg.number with
    | .ok signer => .ok { cfg := cfg, state := state, signer := signer }
    | .err e => .err e
    | .crash => .crash
  else if state.algorithm = AlgorithmSecp256k1Raw then
    match Secp256k1FromHex state.data with
    | .ok signer => .ok { cfg := cfg, state := state, signer := signer }
    | .err e => .err e
    | .crash => .crash
  else
    .err (.unsupportedAlgorithm state.algorithm)

/-- `fileWallet.ConsensusSigner` of file.go: the capability-checked cast —
a wrapped Ed25519 signer unwraps to its consensus-layer signer, every
other signer yields the explicit absent capability (`nil`, here
`none`). -/
def fileWallet.ConsensusSigner (w : fileWallet) : Option CoreSigner :=
  match w.signer with
  | .ed25519Wrapped core => some core
  | _ => none

/-- `fileWalletFactory.HasConsensusSigner` of file.go: true exactly for the
two Ed25519 algorithm tags of a decodable configuration. -/
def fileWalletFactory.HasConsensusSigner (raw : Option walletConfig) : Bool :=
  match unmarshalConfig raw with
  | .ok cfg =>
    if cfg.algorithm = AlgorithmEd25519Raw ∨
        cfg.algorithm = AlgorithmEd25519Adr8 then true else false
  | _ => false

/-- Modelled from the spec: the public key of a signer — a deterministic
pure function of the signer's key material, one curve per variant. -/
inductive PublicKey where
  | ed25519 (core : CoreSigner)
  | secp256k1Mnemonic (mnemonic : String) (number : Nat)
  | secp256k1Hex (key : String)
deriving DecidableEq, Repr

/-- Modelled from the spec: `signer.Public()`. -/
def Signer.Public (s : Signer) : PublicKey :=
  match s with
  | .ed25519Wrapped core => .ed25519 core
  | .secp256k1Mnemonic m n => .secp256k1Mnemonic m n
  | .secp256k1Hex k => .secp256k1Hex k

/-- Modelled from the spec: `types.SignatureAddressSpec` — the fixed
per-algorithm address scheme applied to a public key (direct scheme for
Ed25519, Ethereum-compatible scheme for Secp256k1), or the zero value. -/
inductive SignatureAddressSpec where
  | ed25519 (pk : PublicKey)
  | secp256k1Eth (pk : PublicKey)
  | empty
deriving DecidableEq, Repr

/-- Whether a public key is an Ed25519 key (the Go type assertion
`.(ed25519.PublicKey)` succeeds exactly then). -/
def PublicKey.isEd25519 (pk : PublicKey) : Bool :=
  match pk with
  | .ed25519 _ => true
  | _ => false

/-- `fileWallet.SignatureAddressSpec` of file.go: dispatch on the
configured algorithm; the Go type assertion on the signer's public key
crashes when the key is of the other curve's type. -/
def fileWallet.SignatureAddressSpec (w : fileWallet) :
    GoResult SignatureAddressSpec :=
  if w.cfg.algorithm = AlgorithmEd25519Adr8 ∨
      w.cfg.algorithm = AlgorithmEd25519Raw then
    if w.signer.Public.isEd25519 then .ok (.ed25519 w.signer.Public)
    else .crash
  else if w.cfg.algorithm = AlgorithmSecp256k1Bip44 ∨
      w.cfg.algorithm = AlgorithmSecp256k1Raw then
    if w.signer.Public.isEd25519 then .crash
    else .ok (.secp256k1Eth w.signer.Public)
  else .ok .empty

/-- Modelled from the spec: an account address — a deterministic pure
function of the signature address spec (`types.NewAddress`). -/
structure Address where
  ofSpec : SignatureAddressSpec
deriving DecidableEq, Repr

/-- Modelled from the spec: `types.NewAddress`. -/
def NewAddress (spec : SignatureAddressSpec) : Address :=
  { ofSpec := spec }

/-- `fileWallet.Address` of file.go:
`types.NewAddress(w.SignatureAddressSpec())`. -/
def fileWallet.Address (w : fileWallet) : GoResult Address :=
  match w.SignatureAddressSpec with
  | .ok spec => .ok (NewAddress spec)
  | .err e => .err e
  | .crash => .crash

/-- `fileWallet.UnsafeExport` of file.go: the raw underlying secret data,
returned verbatim. -/
def fileWallet.UnsafeExport (w : fileWallet) : String :=
  w.state.data

/-- `getWalletFilename` of file.go (the configuration directory prefix,
an external collaborator, is omitted). -/
def getWalletFilename (name : String) : String :=
  name ++ ".wallet"

/-- `fileWalletFactory.Create` of file.go.  The mnemonic produced by the
entropy source and the random nonce/salt bytes enter as parameters; the
function returns the Go result together with the list of wallet files
written during the call (`ioutil.WriteFile`, assumed to succeed).  Note the
order: the sealed state is persisted before the signer is constructed. -/
def fileWalletFactory.Create (name : String) (passphrase : String)
    (raw : Option walletConfig) (mnemonic : String) (nonce salt : List Nat) :
    GoResult fileWallet × List (String × secretStateEnvelope) :=
  match unmarshalConfig raw with
  | .err e => (.err e, [])
  | .crash => (.crash, [])
  | .ok cfg =>
    let state : secretState := { algorithm := cfg.algorithm, data := mnemonic }
    match state.Seal passphrase nonce salt with
    | .err e => (.err e, [])
    | .crash => (.crash, [])
    | .ok envelope =>
      match newWallet state cfg with
      | .ok w => (.ok w, [(getWalletFilename name, envelope)])
      | .err e => (.err e, [(getWalletFilename name, envelope)])
      | .crash => (.crash, [(getWalletFilename name, envelope)])

/-- `fileWalletFactory.Import` of file.go: validate the algorithm/source
compatibility, construct the wallet (and signer) first, and only then seal
and persist the state — a failing signer construction writes nothing. -/
def fileWalletFactory.Import (name : String) (passphrase : String)
    (raw : Option walletConfig) (src : ImportSource) (nonce salt : List Nat) :
    GoResult fileWallet × List (String × secretStateEnvelope) :=
  match unmarshalConfig raw with
  | .err e => (.err e, [])
  | .crash => (.crash, [])
  | .ok cfg =>
    let state : secretState := { algorithm := cfg.algorithm, data := src.data }
    let proceed : GoResult fileWallet × List (String × secretStateEnvelope) :=
      match newWallet state cfg with
      | .err e => (.err e, [])
      | .crash => (.crash, [])
      | .ok w =>
        match state.Seal passphrase nonce salt with
        | .err e => (.err e, [])
        | .crash => (.crash, [])
        | .ok envelope => (.ok w, [(getWalletFilename name, envelope)])
    match src.kind with
    | .mnemonic =>
      if cfg.algorithm = AlgorithmEd25519Adr8 ∨
          cfg.algorithm = AlgorithmSecp256k1Bip44 then proceed
      else (.err (.importIncompatible cfg.algorithm), [])
    | .privateKey =>
      if cfg.algorithm = AlgorithmEd25519Raw ∨
          cfg.algorithm = AlgorithmSecp256k1Raw then proceed
      else (.err (.importIncompatible cfg.algorithm), [])

/-- Wallets built by `newWallet` carry exactly the configuration and secret
state they were built from. -/
theorem newWallet_ok_cfg_state (state : secretState) (cfg : walletConfig)
    (w : fileWallet) (h : newWallet state cfg = .ok w) :
    w.cfg = cfg ∧ w.state = state := by
  unfold newWallet at h
  split_ifs at h <;> (try split at h) <;> cases h <;> simp

/-- C4: for every wallet successfully built by `newWallet` (with the
configured algorithm, as in every factory path), the consensus signer is
present exactly when the algorithm is Ed25519-ADR8 or Ed25519-Raw; for
Secp256k1-BIP44 and Secp256k1-Raw wallets `ConsensusSigner` returns the
explicit absent capability (`none`) — never a crash or a substitute — and
presence agrees with `HasConsensusSigner` on the same configuration. -/
theorem C4_consensus_signer_capability (state : secretState)
    (cfg : walletConfig) (w : fileWallet)
    (halg : state.algorithm = cfg.algorithm)
    (h : newWallet state cfg = .ok w) :
    ((w.ConsensusSigner ≠ none) ↔
      (cfg.algorithm = AlgorithmEd25519Adr8 ∨
       cfg.algorithm = AlgorithmEd25519Raw)) ∧
    ((cfg.algorithm = AlgorithmSecp256k1Bip44 ∨
      cfg.algorithm = AlgorithmSecp256k1Raw) → w.ConsensusSigner = none) ∧
    ((w.ConsensusSigner ≠ none) ↔
      fileWalletFactory.HasConsensusSigner (some cfg) = true) := by
  unfold newWallet at h
  split_ifs at h with h1 h2 h3 h4
  · have hcfg : cfg.algorithm = AlgorithmEd25519Adr8 := by rw [← halg, h1]
    split at h
    case _ s heq =>
      cases h
      refine ⟨?_, ?_, ?_⟩ <;>
        simp [fileWallet.ConsensusSigner, hcfg,
          fileWalletFactory.HasConsensusSigner, unmarshalConfig,
          AlgorithmEd25519Adr8, AlgorithmEd25519Raw,
          AlgorithmSecp256k1Bip44, AlgorithmSecp256k1Raw]
    case _ => cases h
    case _ => cases h
  · have hcfg : cfg.algorithm = AlgorithmEd25519Raw := by rw [← halg, h2]
    split at h
    case _ s heq =>
      cases h
      refine ⟨?_, ?_, ?_⟩ <;>
        simp [fileWallet.ConsensusSigner, hcfg,
          fileWalletFactory.HasConsensusSigner, unmarshalConfig,
          AlgorithmEd25519Adr8, AlgorithmEd25519Raw,
          AlgorithmSecp256k1Bip44, AlgorithmSecp256k1Raw]
    case _ => cases h
    case _ => cases h
  · have hcfg : cfg.algorithm = AlgorithmSecp256k1Bip44 := by rw [← halg, h3]
    split at h
    case _ s heq =>
      cases h
      unfold Secp256k1FromMnemonic at heq
      split_ifs at heq
      cases heq
      refine ⟨?_, ?_, ?_⟩ <;>
        simp [fileWallet.ConsensusSigner, hcfg,
          fileWalletFactory.HasConsensusSigner, unmarshalConfig,
          AlgorithmEd25519Adr8, AlgorithmEd25519Raw,
          AlgorithmSecp256k1Bip44, AlgorithmSecp256k1Raw]
    case _ => cases h
    case _ => cases h
  · have hcfg : cfg.algorithm = AlgorithmSecp256k1Raw := by rw [← halg, h4]
    split at h
    case _ s heq =>
      cases h
      unfold Secp256k1FromHex at heq
      split_ifs at heq
      cases heq
      refine ⟨?_, ?_, ?_⟩ <;>
        simp [fileWallet.ConsensusSigner, hcfg,
          fileWalletFactory.HasConsensusSigner, unmarshalConfig,
          AlgorithmEd25519Adr8, AlgorithmEd25519Raw,
          AlgorithmSecp256k1Bip44, AlgorithmSecp256k1Raw]
    case _ => cases h
    case _ => cases h

/-- Witness for C4: a concrete Secp256k1-Raw wallet has the explicit absent
consensus capability and `HasConsensusSigner` is false; a concrete
Ed25519-Raw wallet has it present. -/
theorem C4_consensus_signer_capability_witness :
    (fileWallet.ConsensusSigner
        { cfg := { algorithm := "secp256k1-raw", number := 0 }
          state := { algorithm := "secp256k1-raw", data := "ab" }
          signer := .secp256k1Hex "ab" } = none) ∧
    ¬(fileWalletFactory.HasConsensusSigner
        (some { algorithm := "secp256k1-raw", number := 0 }) = true) :=
  ⟨(C4_consensus_signer_capability
      { algorithm := "secp256k1-raw", data := "ab" }
      { algorithm := "secp256k1-raw", number := 0 } _ rfl rfl).2.1
     (Or.inr rfl),
   fun hb =>
     ((C4_consensus_signer_capability
        { algorithm := "secp256k1-raw", data := "ab" }
        { algorithm := "secp256k1-raw", number := 0 } _ rfl rfl).2.2.mpr hb)
       ((C4_consensus_signer_capability
          { algorithm := "secp256k1-raw", data := "ab" }
          { algorithm := "secp256k1-raw", number := 0 } _ rfl rfl).2.1
         (Or.inr rfl))⟩

/-- Observable outcome of a wallet construction: the Go result restricted
to the derived signer and the computed address. -/
def walletView (r : GoResult fileWallet) :
    GoResult (Signer × GoResult Address) :=
  match r with
  | .ok w => .ok (w.signer, w.Address)
  | .err e => .err e
  | .crash => .crash

/-- C7: under the raw-key algorithms (Ed25519-Raw and Secp256k1-Raw), for
every secret data string and any two account indices, wallet construction
yields the identical signer and the identical address — the index has no
effect on the observable result (two-run noninterference over `newWallet`
and `Address`). -/
theorem C7_raw_key_index_noninterference (data alg : String) (n1 n2 : Nat)
    (halg : alg = AlgorithmEd25519Raw ∨ alg = AlgorithmSecp256k1Raw) :
    walletView (newWallet { algorithm := alg, data := data }
        { algorithm := alg, number := n1 }) =
      walletView (newWallet { algorithm := alg, data := data }
        { algorithm := alg, number := n2 }) := by
  cases halg with
  | inl h =>
    subst h
    cases hb : ed25519rawSignerFromBase64 data with
    | ok s =>
      simp [walletView, newWallet, AlgorithmEd25519Raw, AlgorithmEd25519Adr8,
        hb, fileWallet.Address, fileWallet.SignatureAddressSpec,
        Signer.Public, PublicKey.isEd25519]
    | err e =>
      simp [walletView, newWallet, AlgorithmEd25519Raw, AlgorithmEd25519Adr8,
        hb]
    | crash =>
      simp [walletView, newWallet, AlgorithmEd25519Raw, AlgorithmEd25519Adr8,
        hb]
  | inr h =>
    subst h
    cases hb : Secp256k1FromHex data with
    | ok s =>
      simp [walletView, newWallet, AlgorithmSecp256k1Raw, AlgorithmEd25519Adr8,
        AlgorithmEd25519Raw, AlgorithmSecp256k1Bip44, hb,
        fileWallet.Address, fileWallet.SignatureAddressSpec,
        Signer.Public, PublicKey.isEd25519]
    | err e =>
      simp [walletView, newWallet, AlgorithmSecp256k1Raw, AlgorithmEd25519Adr8,
        AlgorithmEd25519Raw, AlgorithmSecp256k1Bip44, hb]
    | crash =>
      simp [walletView, newWallet, AlgorithmSecp256k1Raw, AlgorithmEd25519Adr8,
        AlgorithmEd25519Raw, AlgorithmSecp256k1Bip44, hb]

/-- Witness for C7 at concrete data and two distinct indices. -/
theorem C7_raw_key_index_noninterference_witness :
    walletView (newWallet { algorithm := "secp256k1-raw", data := "0abc" }
        { algorithm := "secp256k1-raw", number := 0 }) =
      walletView (newWallet { algorithm := "secp256k1-raw", data := "0abc" }
        { algorithm := "secp256k1-raw", number := 5 }) :=
  C7_raw_key_index_noninterference "0abc" "secp256k1-raw" 0 5 (Or.inr rfl)

/-- C9: every successful `Import` returns a wallet whose `UnsafeExport`
is exactly the imported source data string, verbatim — no normalization,
trimming or re-encoding between import and export. -/
theorem C9_import_export_verbatim (name passphrase : String)
    (raw : Option walletConfig) (src : ImportSource) (nonce salt : List Nat)
    (w : fileWallet) (writes : List (String × secretStateEnvelope))
    (h : fileWalletFactory.Import name passphrase raw src nonce salt =
      (.ok w, writes)) :
    w.UnsafeExport = src.data := by
  unfold fileWalletFactory.Import at h
  split at h
  case _ => simp at h
  case _ => simp at h
  case _ cfg heq =>
    split at h <;> split_ifs at h <;> try simp at h
    all_goals (
      split at h
      case _ e hw => simp at h
      case _ hw => simp at h
      case _ w' hw =>
        split at h <;> try simp at h
        case _ env hs =>
          rw [← h.1]
          have hst := (newWallet_ok_cfg_state _ _ _ hw).2
          show w'.state.data = src.data
          rw [hst])

/-- Witness for C9: a concrete private-key import followed by export
returns the imported hex key verbatim. -/
theorem C9_import_export_verbatim_witness :
    ∃ w writes,
      fileWalletFactory.Import "n" "pw"
          (some { algorithm := "secp256k1-raw", number := 0 })
          { kind := .privateKey, data := "0abc" }
          (List.range 32) (List.range 32) = (.ok w, writes) ∧
      w.UnsafeExport = "0abc" := by
  refine ⟨_, _, rfl, ?_⟩
  exact C9_import_export_verbatim "n" "pw"
    (some { algorithm := "secp256k1-raw", number := 0 })
    { kind := .privateKey, data := "0abc" }
    (List.range 32) (List.range 32) _ _ rfl

/-- C10: `Create` is not atomic on error — it seals and persists the wallet
file before constructing the signer, so whenever signer construction fails
on the generated mnemonic (e.g. under a raw-key or unknown algorithm),
`Create` returns the error yet the sealed wallet file has already been
written; `Import` orders the steps the other way, so an `Import` whose
signer construction fails writes nothing. -/
theorem C10_create_not_atomic_import_atomic (name p : String)
    (cfg : walletConfig) (mnemonic : String) (src : ImportSource)
    (nonce salt : List Nat) (er er₂ : WalletError)
    (hn : deoxysiiNonceSize ≤ nonce.length)
    (hfailC : newWallet { algorithm := cfg.algorithm, data := mnemonic }
        cfg = .err er)
    (hfailI : newWallet { algorithm := cfg.algorithm, data := src.data }
        cfg = .err er₂) :
    (∃ env, fileWalletFactory.Create name p (some cfg) mnemonic nonce salt =
      (.err er, [(getWalletFilename name, env)])) ∧
    (∃ er', fileWalletFactory.Import name p (some cfg) src nonce salt =
      (.err er', [])) := by
  constructor
  · refine ⟨{ kdf := { argon2 := some { salt := salt, time := 1,
                                        memory := 64 * 1024, threads := 4 } }
              nonce := nonce
              data := aeadSeal (argon2IDKey p salt 1 (64 * 1024) 4 stateKeySize)
                        (nonce.take deoxysiiNonceSize)
                        (marshalSecretState
                          { algorithm := cfg.algorithm, data := mnemonic }) [] },
            ?_⟩
    unfold fileWalletFactory.Create
    simp only [unmarshalConfig]
    rw [seal_eq, if_pos hn, hfailC]
  · unfold fileWalletFactory.Import
    simp only [unmarshalConfig]
    obtain ⟨kind, data⟩ := src
    cases kind
    · dsimp only
      split_ifs
      · exact ⟨er₂, by rw [hfailI]⟩
      · exact ⟨.importIncompatible cfg.algorithm, rfl⟩
    · dsimp only
      split_ifs
      · exact ⟨er₂, by rw [hfailI]⟩
      · exact ⟨.importIncompatible cfg.algorithm, rfl⟩

/-- Witness for C10: creating an Ed25519-Raw wallet with a generated
mnemonic fails (a mnemonic is not a base64 raw key) yet persists the sealed
file, while the corresponding import fails without writing. -/
theorem C10_create_not_atomic_import_atomic_witness :
    (∃ env, fileWalletFactory.Create "n" "pw"
        (some { algorithm := "ed25519-raw", number := 0 }) "ab cd"
        (List.range 32) (List.range 32) =
      (.err .signerInitFailed, [(getWalletFilename "n", env)])) ∧
    (∃ er', fileWalletFactory.Import "n" "pw"
        (some { algorithm := "ed25519-raw", number := 0 })
        { kind := .privateKey, data := "ab cd" }
        (List.range 32) (List.range 32) = (.err er', [])) :=
  C10_create_not_atomic_import_atomic "n" "pw"
    { algorithm := "ed25519-raw", number := 0 } "ab cd"
    { kind := .privateKey, data := "ab cd" }
    (List.range 32) (List.range 32) .signerInitFailed .signerInitFailed
    (by decide) (by rfl) (by rfl)

end FileWallet
